import Mathlib

/-!
# Verification of `aio_api_ros` (Mikrotik RouterOS API client)

Shallow embedding of `src/aio_api_ros/connection.py` (class `ApiRosConnection`).
Bytes are modelled as `Nat` (values < 256 where it matters), Python strings on
the encoding side as `List Char` (Python `len` counts code points), raw wire
data as `List Nat`.

The repository modules `parser` (`parse_sentence`) and `unpacker`
(`SentenceUnpacker`) are imported by `connection.py` but their source is not
part of the package under verification here; they are modelled from the spec
(sections 4.2 and 4.3) and marked as such in their doc comments.
-/

namespace AioApiRos

/-- Recursion core of `bitLength`; `fuel` only bounds the recursion depth and
`n + 1` is always enough, since the argument halves at each step. -/
def bitLengthFuel : Nat → Nat → Nat
  | 0, _ => 0
  | fuel + 1, n => if n = 0 then 0 else bitLengthFuel fuel (n / 2) + 1

/-- Python `int.bit_length()` for non-negative `n`: number of bits needed,
with `bit_length 0 = 0`. -/
def bitLength (n : Nat) : Nat :=
  bitLengthFuel (n + 1) n

/-- Python `n.to_bytes(w, byteorder='little')`: `w` bytes, least significant
first (the source always picks a width large enough, so no overflow case). -/
def toBytesLE : Nat → Nat → List Nat
  | 0, _ => []
  | w + 1, n => n % 256 :: toBytesLE w (n / 256)

/-- `ApiRosConnection._to_bytes` applied to a length value `n = len(str_value)`:
`length = (n.bit_length() // 8) + 1; n.to_bytes(length, byteorder='little')`
(connection.py lines 40-49). -/
def encodeLen (n : Nat) : List Nat :=
  toBytesLE (bitLength n / 8 + 1) n

/-- UTF-8 encoding of one code point (Python `str.encode()`; `Char` carries
no surrogates, matching Python's strict encoder on encodable text). -/
def utf8EncodeChar (c : Char) : List Nat :=
  let n := c.toNat
  if n < 0x80 then [n]
  else if n < 0x800 then
    [0xC0 + n / 0x40, 0x80 + n % 0x40]
  else if n < 0x10000 then
    [0xE0 + n / 0x1000, 0x80 + (n / 0x40) % 0x40, 0x80 + n % 0x40]
  else
    [0xF0 + n / 0x40000, 0x80 + (n / 0x1000) % 0x40,
     0x80 + (n / 0x40) % 0x40, 0x80 + n % 0x40]

/-- Python `s.encode()`: UTF-8 bytes of the whole string. -/
def utf8Encode (s : List Char) : List Nat :=
  (s.map utf8EncodeChar).flatten

/-- ASCII string literal as a byte list (used only for ASCII constants such as
the reply tags). -/
def asciiB (s : String) : List Nat :=
  s.toList.map Char.toNat

/-! ## The writer and the outgoing (encoding) path

`self.writer.write(bs)` appends bytes to the transport's outgoing buffer; we
model the buffer explicitly and each `talk_*` method as a function on it. -/

/-- The outgoing byte buffer of `self.writer`. -/
structure Writer where
  buf : List Nat
deriving Repr, DecidableEq

/-- `self.writer.write(bs)`. -/
def write (w : Writer) (bs : List Nat) : Writer :=
  ⟨w.buf ++ bs⟩

/-- `ApiRosConnection._to_bytes(str_value)`: the length prefix written for a
string, computed from `len(str_value)` — the code point count. -/
def to_bytes (s : List Char) : List Nat :=
  encodeLen s.length

/-- `ApiRosConnection._talk_end` (lines 51-57): writes `_to_bytes('')` then
`''.encode()`. -/
def talk_end (w : Writer) : Writer :=
  write (write w (to_bytes [])) (utf8Encode [])

/-- `ApiRosConnection.talk_word` (lines 59-69): writes `_to_bytes(str_value)`,
then `str_value.encode()`, then optionally the end-of-sentence marker. -/
def talk_word (w : Writer) (str_value : List Char) (send_end : Bool) : Writer :=
  let w := write (write w (to_bytes str_value)) (utf8Encode str_value)
  if send_end then talk_end w else w

/-- `ApiRosConnection.talk_sentence` (lines 71-79): each word with
`send_end=False`, then `_talk_end()`. -/
def talk_sentence (w : Writer) (sentence : List (List Char)) : Writer :=
  talk_end (sentence.foldl (fun w word => talk_word w word false) w)

/-! ## Byte-string helpers: substring search and Python `str.split`

`login`/`read` test membership with Python's `in` on the decoded text and
`_get_err_message` uses `str.split`; for the ASCII patterns involved these
operate byte-for-byte on the raw data, which is how we model them. -/

/-- `leadsWith pat s`: `s` starts with `pat`. -/
def leadsWith : List Nat → List Nat → Bool
  | [], _ => true
  | _ :: _, [] => false
  | p :: ps, x :: xs => p == x && leadsWith ps xs

/-- Index of the first occurrence of `pat` in `s` (`str.find` for a non-empty
pattern), `none` when absent. -/
def findSub (pat : List Nat) : List Nat → Option Nat
  | [] => none
  | x :: xs => if leadsWith pat (x :: xs) then some 0 else (findSub pat xs).map (· + 1)

/-- Python `pat in s` for a non-empty pattern. -/
def hasSub (pat s : List Nat) : Bool :=
  (findSub pat s).isSome

theorem leadsWith_le (p s : List Nat) (h : leadsWith p s = true) :
    p.length ≤ s.length := by
  induction p generalizing s with
  | nil => simp
  | cons a ps ih =>
    cases s with
    | nil => simp [leadsWith] at h
    | cons b t =>
      simp only [leadsWith, Bool.and_eq_true] at h
      have := ih t h.2
      simp only [List.length_cons]
      omega

theorem findSub_le (pat s : List Nat) (i : Nat) (h : findSub pat s = some i) :
    i + pat.length ≤ s.length := by
  induction s generalizing i with
  | nil => simp [findSub] at h
  | cons b t ih =>
    simp only [findSub] at h
    by_cases hl : leadsWith pat (b :: t) = true
    · rw [if_pos hl] at h
      have hle := leadsWith_le pat (b :: t) hl
      have : i = 0 := by
        cases h
        rfl
      subst this
      omega
    · rw [if_neg hl] at h
      cases hf : findSub pat t with
      | none => rw [hf] at h; simp at h
      | some j =>
        rw [hf] at h
        have hij : j + 1 = i := by simpa using h
        have := ih j hf
        simp only [List.length_cons]
        omega

/-- Recursion core of `pySplit`. The `fuel` argument only bounds the
recursion depth: by `findSub_le`, each step removes at least `pat.length ≥ 1`
bytes from a non-empty `s`, so `s.length + 1` steps always suffice and the
fuel-exhausted arm is unreachable for a non-empty pattern. -/
def pySplitFuel (pat : List Nat) : Nat → List Nat → List (List Nat)
  | 0, s => [s]
  | fuel + 1, s =>
    match findSub pat s with
    | none => [s]
    | some i => s.take i :: pySplitFuel pat fuel (s.drop (i + pat.length))

/-- Python `s.split(pat)` for byte strings (the source only splits on the
non-empty separators `'=message='` and `'\x00'`). -/
def pySplit (pat : List Nat) (s : List Nat) : List (List Nat) :=
  if pat = [] then [s] else pySplitFuel pat (s.length + 1) s

/-- `ApiRosConnection._get_err_message` (lines 100-107):
`data.decode().split('=message=')[1].split('\x00')[0]`. `none` models the
`IndexError` raised when `'=message='` does not occur. -/
def get_err_message (data : List Nat) : Option (List Nat) :=
  match (pySplit (asciiB "=message=") data)[1]? with
  | none => none
  | some piece => (pySplit [0] piece)[0]?

/-! ## Incoming (decoding) path

`connection.py` imports `SentenceUnpacker` from the repository's `unpacker`
module and `parse_sentence` from its `parser` module; those files are not part
of the sources under verification, so the definitions below are modelled from
the spec (sections 4.1-4.3). Decoded words are kept as raw byte lists: every
word the claims inspect is ASCII, where the spec's lossy UTF-8 text decoding
is the identity on bytes. -/

/-- Width information of a length-prefix first byte under the documented
scheme: `some (k, hi)` means `k` further bytes follow and the first byte
contributes high part `hi`; `none` marks inconsistent marker bits. -/
def lenWidth (b : Nat) : Option (Nat × Nat) :=
  if b < 0x80 then some (0, b)
  else if b < 0xC0 then some (1, b - 0x80)
  else if b < 0xE0 then some (2, b - 0xC0)
  else if b < 0xF0 then some (3, b - 0xE0)
  else if b = 0xF0 then some (4, 0)
  else none

/-- Big-endian accumulation of the remaining length bytes onto the high part. -/
def beVal (hi : Nat) (bs : List Nat) : Nat :=
  bs.foldl (fun a b => a * 256 + b) hi

/-- Modelled from the spec: `decodeLength(stream) -> (n, rest)` of the
`unpacker` module (not under src/), per the documented variable-width scheme
of section 4.1; `none` models `FramingError` (inconsistent marker bits or a
stream ending mid-length). -/
def decodeLength : List Nat → Option (Nat × List Nat)
  | [] => none
  | b :: rest =>
    match lenWidth b with
    | none => none
    | some (k, hi) =>
      if k ≤ rest.length then some (beVal hi (rest.take k), rest.drop k)
      else none

theorem decodeLength_shrink (bs : List Nat) (n : Nat) (rest : List Nat)
    (h : decodeLength bs = some (n, rest)) : rest.length < bs.length := by
  cases bs with
  | nil => simp [decodeLength] at h
  | cons b t =>
    simp only [decodeLength] at h
    split at h
    next => simp at h
    next k hi heq =>
      split at h
      next hk =>
        cases h
        simp only [List.length_drop, List.length_cons]
        omega
      next hk => simp at h

/-- Modelled from the spec: the `SentenceUnpacker` iteration (section 4.2) —
read a length, then that many word bytes, accumulating words until the
zero-length terminator closes a sentence; a stream ending mid-length or
mid-word (the spec's `FramingError`) ends the iteration, as does the end of
the fed data. The `fuel` argument only bounds the recursion depth: by
`decodeLength_shrink`, each step consumes at least one byte, so
`bs.length + 1` steps always suffice and the fuel-exhausted arm is
unreachable. -/
def decodeSentencesFuel : Nat → List Nat → List (List Nat) → List (List (List Nat))
  | 0, _, _ => []
  | fuel + 1, bs, acc =>
    match decodeLength bs with
    | none => []
    | some (n, rest) =>
      if n = 0 then acc.reverse :: decodeSentencesFuel fuel rest []
      else if n ≤ rest.length then
        decodeSentencesFuel fuel (rest.drop n) (rest.take n :: acc)
      else []

/-- All sentences decoded from a fed byte buffer (`unpacker.feed(data)`
followed by iterating the unpacker). -/
def decodeSentences (bs : List Nat) : List (List (List Nat)) :=
  decodeSentencesFuel (bs.length + 1) bs []

/-! ## Reply parsing -/

/-- A Python dict from attribute key to value, as an insertion-ordered
association list with unique keys. -/
abbrev Record := List (List Nat × List Nat)

/-- Python `d[k] = v` on a `Record`. -/
def recSet (r : Record) (k v : List Nat) : Record :=
  if r.any (fun p => p.1 == k) then
    r.map (fun p => if p.1 == k then (k, v) else p)
  else r ++ [(k, v)]

/-- Python `d[k]`, `none` for a `KeyError`. -/
def recGet (r : Record) (k : List Nat) : Option (List Nat) :=
  (r.find? (fun p => p.1 == k)).map Prod.snd

/-- An attribute word of shape `=key=value`: key is the part before the first
`=` after the leading one, value the remainder (spec section 4.3). -/
def parseAttr (w : List Nat) : Option (List Nat × List Nat) :=
  match w with
  | 0x3D :: rest =>
    match findSub [0x3D] rest with
    | none => none
    | some i => some (rest.take i, rest.drop (i + 1))
  | _ => none

/-- Modelled from the spec: `parse_sentence` of the `parser` module (not under
src/), section 4.3 — the first word is the tag, each later word of shape
`=key=value` is folded into the record, other words are ignored. The spec's
middle component (opaque first-word remainder) is discarded by `query` and
omitted here. -/
def parse_sentence (s : List (List Nat)) : Option (List Nat) × Record :=
  (s.head?,
   s.tail.foldl
     (fun r w =>
       match parseAttr w with
       | some kv => recSet r kv.1 kv.2
       | none => r)
     [])

/-! ## `query`, `read`, `login`, `connect`, `close`, `__init__` -/

/-- The tag and sentinel constants of `connection.py` / `query`. -/
def TRAPB : List Nat := asciiB "!trap"

def REB : List Nat := asciiB "!re"

def FATALB : List Nat := asciiB "!fatal"

def DONEB : List Nat := asciiB "!done"

def MESSAGEB : List Nat := asciiB "message"

def NOCMDB : List Nat := asciiB "no such command prefix"

/-- How the generator `ApiRosConnection.query` finishes. -/
inductive QueryOutcome where
  /-- `return`, `break` on `!done`, or the sentence iterator is exhausted. -/
  | success
  /-- the `raise Exception("Caught trap while querying %s %s" % (path, obj))`. -/
  | commandError (path : List Nat) (record : Record)
  /-- the `KeyError` from `obj["message"]` when the trap record has no
  `message` key (reachable only with `optional=True`, by short-circuiting). -/
  | keyError
deriving Repr, DecidableEq

/-- The per-sentence loop of `ApiRosConnection.query` (lines 141-149) over an
already-decoded sentence list: `!trap` → return silently when `optional` and
the record's message is the sentinel, else raise; `!done` → break; any other
sentence → yield its record. Returns the yielded records in order and the
outcome. -/
def queryLoop (path : List Nat) (optional : Bool) :
    List (List (List Nat)) → List Record × QueryOutcome
  | [] => ([], .success)
  | s :: rest =>
    let p := parse_sentence s
    if p.1 = some TRAPB then
      if optional then
        match recGet p.2 MESSAGEB with
        | none => ([], .keyError)
        | some m =>
          if m = NOCMDB then ([], .success)
          else ([], .commandError path p.2)
      else ([], .commandError path p.2)
    else if p.1 = some DONEB then ([], .success)
    else
      let r := queryLoop path optional rest
      (p.2 :: r.1, r.2)

/-- `ApiRosConnection.read` (lines 151-165) over the schedule of chunks the
transport will deliver (an empty chunk is EOF; an exhausted schedule behaves
as EOF): accumulate each chunk, stop after an empty chunk or after a chunk
containing the byte substring `b'!done'`. -/
def read_accum : List (List Nat) → List Nat
  | [] => []
  | c :: cs =>
    if c = [] then []
    else if hasSub DONEB c then c
    else c ++ read_accum cs

/-- The read→feed→classify composition of `ApiRosConnection.query`
(lines 136-141): `data = await self.read(); unpacker.feed(data);
for sentence in unpacker: ...`. -/
def query_run (path : List Nat) (optional : Bool) (chunks : List (List Nat)) :
    List Record × QueryOutcome :=
  queryLoop path optional (decodeSentences (read_accum chunks))

/-- Result of the transport read `await self.reader.read(LOGIN_DATA_LEN)`
inside `login`: either the bytes delivered (`b''` when the peer closed), or a
`ConnectionResetError`. -/
inductive ReadResult where
  | data (bs : List Nat)
  | reset
deriving Repr, DecidableEq

/-- How `ApiRosConnection.login` finishes. -/
inductive LoginResult where
  /-- `return data`. -/
  | ok (bs : List Nat)
  /-- `raise LoginFailed(msg)`. -/
  | loginFailed (msg : List Nat)
  /-- the `IndexError` from `_get_err_message` when a tag is present but
  `'=message='` is not. -/
  | indexError
deriving Repr, DecidableEq

/-- `ApiRosConnection.login` (lines 167-188) after the login sentence has been
sent, classifying the read outcome: `'!trap' in data` or `'!fatal' in data`
→ `LoginFailed(_get_err_message(data))`; `ConnectionResetError` →
`LoginFailed('Connection reset by peer')`; otherwise return the data. -/
def login_classify : ReadResult → LoginResult
  | .reset => .loginFailed (asciiB "Connection reset by peer")
  | .data d =>
    if hasSub TRAPB d then
      match get_err_message d with
      | some m => .loginFailed m
      | none => .indexError
    else if hasSub FATALB d then
      match get_err_message d with
      | some m => .loginFailed m
      | none => .indexError
    else .ok d

/-- `ApiRosConnection._get_login_sentence` (lines 88-98). -/
def get_login_sentence (user password : List Char) : List (List Char) :=
  [("/login").toList,
   ("=name=").toList ++ user,
   ("=password=").toList ++ password]

/-- The session object state. `ip`, `port`, `user`, `password`, `used` are the
fields `__init__` assigns (connection.py lines 22-26). `authenticated` is a
history marker for the spec's `SessionState` machine — it records whether a
login handshake has already succeeded; `connection.py` stores no such field
and no method ever reads one. -/
structure Session where
  ip : List Char
  port : Int
  user : List Char
  password : List Char
  used : Bool
  authenticated : Bool
deriving Repr, DecidableEq

/-- The observable side effects of one `connect()` call. -/
inductive ConnEffect where
  /-- `await asyncio.open_connection(self.ip, self.port)`: a fresh transport. -/
  | openConnection (ip : List Char) (port : Int)
  /-- `await self.login()`: the login handshake. -/
  | performLogin
deriving Repr, DecidableEq

/-- `ApiRosConnection.connect` (lines 28-32): unconditionally open a new
connection and run the login handshake — the body inspects no session state. -/
def connect_effects (s : Session) : List ConnEffect :=
  [.openConnection s.ip s.port, .performLogin]

/-- The `self.writer` transport handle; `closing` is asyncio's flag set by
`StreamWriter.close()`, which is safe to call repeatedly. -/
structure WriterHandle where
  closing : Bool
deriving Repr, DecidableEq

/-- asyncio `StreamWriter.close()`. -/
def writerClose (_ : WriterHandle) : WriterHandle :=
  ⟨true⟩

/-- The error surfaced by `close()` on a never-connected session. -/
inductive PyError where
  /-- Python `AttributeError`: `self.writer` was never assigned. -/
  | attributeError
deriving Repr, DecidableEq

/-- `ApiRosConnection.close` (lines 81-86): `self.writer.close()`. The
argument is the session's writer attribute — `none` when `connect()` never
assigned it, in which case the attribute access raises `AttributeError`. -/
def close_model : Option WriterHandle → Except PyError WriterHandle
  | none => .error .attributeError
  | some w => .ok (writerClose w)

/-- `ApiRosConnection.__init__` (lines 19-26): reject any falsy argument
(empty string, port 0) with `RuntimeError('Wrong connection params!')` before
any field is assigned; otherwise store the four parameters and `used = False`.
The error payload is the exception message. -/
def init_model (mk_ip : List Char) (mk_port : Int) (mk_user mk_psw : List Char) :
    Except (List Char) Session :=
  if mk_ip = [] ∨ mk_port = 0 ∨ mk_user = [] ∨ mk_psw = [] then
    .error ("Wrong connection params!").toList
  else
    .ok ⟨mk_ip, mk_port, mk_user, mk_psw, false, false⟩

/-! ## Definitions taken from the spec's words (for refinement comparisons) -/

/-- The documented vendor length scheme, stated from the spec's words
(section 4.1): 1 byte below `0x80`, otherwise a marker in the high bits of
the first byte giving the total width, the value big-endian below it. -/
def encodeLength_documented (n : Nat) : List Nat :=
  if n < 0x80 then [n]
  else if n < 0x4000 then
    [n / 0x100 + 0x80, n % 0x100]
  else if n < 0x200000 then
    [n / 0x10000 + 0xC0, n / 0x100 % 0x100, n % 0x100]
  else if n < 0x10000000 then
    [n / 0x1000000 + 0xE0, n / 0x10000 % 0x100, n / 0x100 % 0x100, n % 0x100]
  else
    [0xF0, n / 0x1000000 % 0x100, n / 0x10000 % 0x100, n / 0x100 % 0x100,
     n % 0x100]

/-- The spec's `encodeWord` (section 4.1), stated from the spec's words with
the program's own length encoder: the length prefix is computed from the
UTF-8 byte length of the word, not from its code point count. -/
def encodeWord_specUTF8 (s : List Char) : List Nat :=
  encodeLen (utf8Encode s).length ++ utf8Encode s

/-- The spec's `encodeSentence` (section 4.2), stated from the spec's words:
each word through `encodeWord`, then the empty terminator word. -/
def encodeSentence_specUTF8 (ws : List (List Char)) : List Nat :=
  (ws.map encodeWord_specUTF8).flatten ++ [0]

/-- The source's per-word wire bytes, factored out of `talk_word`: the length
prefix from the code point count, then the UTF-8 bytes. -/
def wordBytes (s : List Char) : List Nat :=
  encodeLen s.length ++ utf8Encode s

/-! # Theorems -/

/-! ## C1 — the variable-width length prefix -/

/-- C1: the source's length-prefix encoding (`_to_bytes`, i.e.
`byte-width = bit_length(n)//8 + 1`, little-endian) does not follow the
documented variable-width marker scheme. The two agree on `n < 0x80`, but at
the boundary `n = 0x80` the source emits the little-endian pair `[0x80, 0x00]`
with no marker while the documented scheme requires `[0x80, 0x80]`, and at
`n = 0x4000` the source emits 2 bytes where the documented scheme requires a
3-byte encoding. -/
theorem c1_encodeLen_vs_documented_scheme :
    ((List.range 0x80).all fun n => encodeLen n == encodeLength_documented n) = true ∧
    encodeLen 0x80 = [0x80, 0x00] ∧
    encodeLength_documented 0x80 = [0x80, 0x80] ∧
    encodeLen 0x80 ≠ encodeLength_documented 0x80 ∧
    encodeLen 0x4000 = [0x00, 0x40] ∧
    (encodeLen 0x4000).length = 2 ∧
    encodeLength_documented 0x4000 = [0xC0, 0x40, 0x00] ∧
    (encodeLength_documented 0x4000).length = 3 := by
  decide

/-! ## C2 — what `talk_sentence` writes -/

/-- On a word list, the `foldl` of `talk_word · false` appends exactly the
per-word wire bytes of each word, in order. -/
theorem talk_fold_buf (ws : List (List Char)) (w : Writer) :
    (ws.foldl (fun w word => talk_word w word false) w).buf =
      w.buf ++ (ws.map wordBytes).flatten := by
  induction ws generalizing w with
  | nil => simp
  | cons s ws ih =>
    simp only [List.foldl_cons, List.map_cons, List.flatten_cons]
    rw [ih]
    simp [talk_word, write, wordBytes, to_bytes, List.append_assoc]

/-- C2 counterexample: the claim fixes the length prefix to the UTF-8 byte
length of the word. For the one-character word `"é"` (1 code point, 2 UTF-8
bytes) the source writes the prefix `1` — `len(str_value)` is the code point
count — while the claimed encoding has prefix `2`. -/
theorem c2_counterexample :
    (talk_sentence ⟨[]⟩ [['é']]).buf = [1, 0xC3, 0xA9, 0] ∧
    encodeSentence_specUTF8 [['é']] = [2, 0xC3, 0xA9, 0] ∧
    (talk_sentence ⟨[]⟩ [['é']]).buf ≠ encodeSentence_specUTF8 [['é']] := by
  decide

/-- C2 (amended): sending a sentence writes exactly the concatenation, in
order, of the encoding of each word — where a word `s` is encoded as the
length encoding of the code point count `len(s)` of `s` (not its UTF-8 byte
count) followed by the UTF-8 bytes of `s` — followed by the empty terminator
word, a single zero length byte. -/
theorem c2_talk_sentence_writes (ws : List (List Char)) :
    (talk_sentence ⟨[]⟩ ws).buf = (ws.map wordBytes).flatten ++ [0] := by
  simp only [talk_sentence, talk_end, write]
  rw [talk_fold_buf]
  simp [to_bytes, utf8Encode, encodeLen, bitLength, toBytesLE]

/-! ## C3 — query over a two-row reply -/

/-- C3: given a reply stream decoding to `[!re {id=*1}, !re {id=*2}, !done]`
(the done sentence here carrying a trailing attribute), `query` yields exactly
the two records `{id: "*1"}` then `{id: "*2"}` in that order, then terminates
the sequence successfully with no error, discarding the record carried by the
done sentence. -/
theorem c3_query_yields_two_records (path : List Nat) (optional : Bool)
    (data : List Nat)
    (h : decodeSentences data =
      [[REB, asciiB "=id=*1"], [REB, asciiB "=id=*2"],
       [DONEB, asciiB "=tail=ignored"]]) :
    queryLoop path optional (decodeSentences data) =
      ([[(asciiB "id", asciiB "*1")], [(asciiB "id", asciiB "*2")]],
       QueryOutcome.success) := by
  rw [h]
  rfl

/-- Concrete reply bytes for the C3 witness: the wire sentences
`!re {id=*1}`, `!re {id=*2}`, `!done {tail=ignored}`. -/
def c3Data : List Nat :=
  [3] ++ asciiB "!re" ++ [6] ++ asciiB "=id=*1" ++ [0] ++
  [3] ++ asciiB "!re" ++ [6] ++ asciiB "=id=*2" ++ [0] ++
  [5] ++ asciiB "!done" ++ [13] ++ asciiB "=tail=ignored" ++ [0]

theorem c3_witness :
    queryLoop (asciiB "/interface") true (decodeSentences c3Data) =
      ([[(asciiB "id", asciiB "*1")], [(asciiB "id", asciiB "*2")]],
       QueryOutcome.success) :=
  c3_query_yields_two_records (asciiB "/interface") true c3Data (by decide)

/-! ## C4 — trap handling and the `optional` flag -/

/-- A sentence that `query` treats as plain data: its tag is neither `!trap`
nor `!done`, so its record is yielded and the loop continues. -/
def isDataSentence (s : List (List Nat)) : Prop :=
  (parse_sentence s).1 ≠ some TRAPB ∧ (parse_sentence s).1 ≠ some DONEB

instance (s : List (List Nat)) : Decidable (isDataSentence s) := by
  unfold isDataSentence
  infer_instance

/-- Running `queryLoop` past a run of plain data sentences yields their
records in order and continues on the remaining sentences. -/
theorem queryLoop_append_data (path : List Nat) (optional : Bool)
    (pre tail : List (List (List Nat)))
    (hpre : ∀ t ∈ pre, isDataSentence t) :
    queryLoop path optional (pre ++ tail) =
      ((pre.map fun t => (parse_sentence t).2) ++
         (queryLoop path optional tail).1,
       (queryLoop path optional tail).2) := by
  induction pre with
  | nil => simp
  | cons a pre ih =>
    have ha := hpre a (List.mem_cons_self a pre)
    simp only [List.cons_append, queryLoop]
    rw [if_neg ha.1, if_neg ha.2]
    simp only [List.append_eq]
    rw [ih (fun t ht => hpre t (List.mem_cons_of_mem a ht))]
    simp

/-- C4: when `query`, after any run of plain data sentences, reaches a `!trap`
sentence: with `optional=True` and the trap record's message equal to the
sentinel `"no such command prefix"` it stops the sequence silently — no error
and no further records; with `optional=False`, or with `optional=True` and any
other message value, it fails with the command error carrying the path and the
trap record. `optional` suppresses exactly the one sentinel message. -/
theorem c4_trap_handling (path : List Nat) (optional : Bool)
    (pre : List (List (List Nat))) (s : List (List Nat))
    (rest : List (List (List Nat))) (obj : Record)
    (hpre : ∀ t ∈ pre, isDataSentence t)
    (hs : parse_sentence s = (some TRAPB, obj)) :
    (optional = true → recGet obj MESSAGEB = some NOCMDB →
      queryLoop path optional (pre ++ s :: rest) =
        ((pre.map fun t => (parse_sentence t).2), QueryOutcome.success)) ∧
    (optional = false →
      queryLoop path optional (pre ++ s :: rest) =
        ((pre.map fun t => (parse_sentence t).2),
         QueryOutcome.commandError path obj)) ∧
    (∀ m, optional = true → recGet obj MESSAGEB = some m → m ≠ NOCMDB →
      queryLoop path optional (pre ++ s :: rest) =
        ((pre.map fun t => (parse_sentence t).2),
         QueryOutcome.commandError path obj)) := by
  have hpref := queryLoop_append_data path optional pre (s :: rest) hpre
  refine ⟨?_, ?_, ?_⟩
  · intro hopt hmsg
    rw [hpref]
    simp only [queryLoop, hs, hopt, hmsg]
    simp
  · intro hopt
    rw [hpref]
    simp only [queryLoop, hs, hopt]
    simp
  · intro m hopt hmsg hne
    rw [hpref]
    simp only [queryLoop, hs, hopt, hmsg]
    simp [hne]

theorem c4_witness :
    queryLoop (asciiB "/x") true
      ([[REB, asciiB "=a=b"]] ++
        [TRAPB, asciiB "=message=no such command prefix"] :: []) =
      (([[REB, asciiB "=a=b"]].map fun t => (parse_sentence t).2),
       QueryOutcome.success) :=
  (c4_trap_handling (asciiB "/x") true [[REB, asciiB "=a=b"]]
      [TRAPB, asciiB "=message=no such command prefix"] []
      [(MESSAGEB, NOCMDB)] (by decide) (by decide)).1 rfl (by decide)

/-! ## C5 — `!fatal` -/

/-- C5 (evaluation at the failing input): `query` gives `!fatal` no special
handling — on the reply stream `[!fatal {message=boom}, !done]` the loop
yields the fatal sentence's record as an ordinary data row and then
terminates the sequence successfully, for either value of `optional`. The
claim (and spec section 4.4) requires `query` to always fail on `!fatal`. -/
theorem c5_fatal_treated_as_data :
    queryLoop (asciiB "/cmd") false
        [[FATALB, asciiB "=message=boom"], [DONEB]] =
      ([[(MESSAGEB, asciiB "boom")]], QueryOutcome.success) ∧
    queryLoop (asciiB "/cmd") true
        [[FATALB, asciiB "=message=boom"], [DONEB]] =
      ([[(MESSAGEB, asciiB "boom")]], QueryOutcome.success) := by
  decide

/-! ## C6 — the read loop -/

/-- First received chunk of the C6 counterexample: the complete wire sentence
`!re {m=!done}` — the bytes `b'!done'` occur inside an attribute payload. -/
def c6Chunk1 : List Nat := [3] ++ asciiB "!re" ++ [8] ++ asciiB "=m=!done" ++ [0]

/-- Second chunk of the C6 counterexample: the wire bytes of the real
batch-terminating `!done` sentence. -/
def c6Chunk2 : List Nat := [5] ++ asciiB "!done" ++ [0]

/-- C6 counterexample: `read` stops as soon as one received chunk contains
the byte substring `b'!done'`, not when a `!done` reply sentence has been
observed. On the schedule `[c6Chunk1, c6Chunk2]` it returns after the first
chunk — whose decoded sentences contain no `!done`-tagged sentence — leaving
the chunk with the actual batch-terminating `!done` unread, so reading stops
before the batch-terminating `!done` has arrived. -/
theorem c6_counterexample :
    read_accum [c6Chunk1, c6Chunk2] = c6Chunk1 ∧
    (∀ s ∈ decodeSentences c6Chunk1, s.head? ≠ some DONEB) ∧
    decodeSentences (c6Chunk1 ++ c6Chunk2) =
      [[REB, asciiB "=m=!done"], [DONEB]] ∧
    read_accum [c6Chunk1, c6Chunk2] ≠ c6Chunk1 ++ c6Chunk2 := by
  decide

/-- Accumulating over chunks that are non-empty and free of the `b'!done'`
substring concatenates them before whatever the remaining schedule yields. -/
theorem read_accum_append (pre rest : List (List Nat))
    (hpre : ∀ d ∈ pre, d ≠ [] ∧ hasSub DONEB d = false) :
    read_accum (pre ++ rest) = pre.flatten ++ read_accum rest := by
  induction pre with
  | nil => simp
  | cons a pre ih =>
    have ha := hpre a (List.mem_cons_self a pre)
    simp only [List.cons_append, read_accum]
    rw [if_neg ha.1, if_neg (by simp [ha.2])]
    simp only [List.append_eq]
    rw [ih (fun d hd => hpre d (List.mem_cons_of_mem a hd))]
    simp

/-- C6 (amended): after sending the command sentence, `query` repeatedly
reads chunks from the transport, accumulating all received bytes, until a
received chunk is empty (the transport closed) or contains the byte substring
`b'!done'` — a per-chunk substring test, not the observation of a full reply
batch — and every accumulated byte is fed through the sentence-decoding
pipeline. An empty chunk is not accumulated; a `b'!done'`-bearing chunk is;
later chunks are left unread. -/
theorem c6_read_until_chunk_marker (path : List Nat) (optional : Bool)
    (pre : List (List Nat)) (c : List Nat) (rest : List (List Nat))
    (hpre : ∀ d ∈ pre, d ≠ [] ∧ hasSub DONEB d = false) :
    (c = [] → read_accum (pre ++ c :: rest) = pre.flatten) ∧
    (hasSub DONEB c = true → read_accum (pre ++ c :: rest) = pre.flatten ++ c) ∧
    query_run path optional (pre ++ c :: rest) =
      queryLoop path optional (decodeSentences (read_accum (pre ++ c :: rest))) := by
  refine ⟨?_, ?_, rfl⟩
  · intro hc
    rw [read_accum_append pre (c :: rest) hpre]
    subst hc
    simp [read_accum]
  · intro hc
    have hcne : c ≠ [] := by
      intro hnil
      rw [hnil] at hc
      simp [hasSub, findSub] at hc
    rw [read_accum_append pre (c :: rest) hpre]
    simp only [read_accum]
    rw [if_neg hcne, if_pos hc]

theorem c6_witness :
    read_accum [[97], asciiB "x!done", [1, 2, 3]] =
      ([[97]] : List (List Nat)).flatten ++ asciiB "x!done" :=
  (c6_read_until_chunk_marker [] false [[97]] (asciiB "x!done") [[1, 2, 3]]
    (by decide)).2.1 (by decide)

/-! ## C7 — login classification -/

/-- C7 counterexample: a transport that closes during the login read makes
`reader.read` return `b''`; no tag is found in the empty bytes, so `login`
returns successfully instead of failing with `LoginFailed` as the claim
requires for a closed transport. -/
theorem c7_counterexample :
    login_classify (ReadResult.data []) = LoginResult.ok [] ∧
    ∀ m, login_classify (ReadResult.data []) ≠ LoginResult.loginFailed m := by
  refine ⟨rfl, ?_⟩
  intro m h
  exact LoginResult.noConfusion h

/-- C7 (amended): during the login handshake, response bytes containing the
tag `!trap` (or, failing that, `!fatal`) make `login` fail with `LoginFailed`
carrying the message extracted by `_get_err_message`; a transport reset
(`ConnectionResetError`) during the read makes it fail with `LoginFailed`;
with neither tag present — including the empty read of a transport that
merely closed — `login` returns the response bytes successfully (the
session is thereafter treated as authenticated; no explicit state is kept). -/
theorem c7_login_classification (d m : List Nat) :
    (hasSub TRAPB d = true → get_err_message d = some m →
      login_classify (ReadResult.data d) = LoginResult.loginFailed m) ∧
    (hasSub TRAPB d = false → hasSub FATALB d = true →
      get_err_message d = some m →
      login_classify (ReadResult.data d) = LoginResult.loginFailed m) ∧
    login_classify ReadResult.reset =
      LoginResult.loginFailed (asciiB "Connection reset by peer") ∧
    (hasSub TRAPB d = false → hasSub FATALB d = false →
      login_classify (ReadResult.data d) = LoginResult.ok d) := by
  refine ⟨?_, ?_, rfl, ?_⟩
  · intro ht hm
    simp [login_classify, ht, hm]
  · intro ht hf hm
    simp [login_classify, ht, hf, hm]
  · intro ht hf
    simp [login_classify, ht, hf]

/-- Concrete login response for the C7 witness: the wire sentence
`!trap {message=invalid user name or password}`. -/
def c7Data : List Nat :=
  [5] ++ asciiB "!trap" ++ [38] ++
  asciiB "=message=invalid user name or password" ++ [0]

theorem c7_witness :
    login_classify (ReadResult.data c7Data) =
      LoginResult.loginFailed (asciiB "invalid user name or password") :=
  (c7_login_classification c7Data (asciiB "invalid user name or password")).1
    (by decide) (by decide)

/-! ## C8 — `connect` idempotence -/

/-- C8 counterexample: on a session whose login handshake already succeeded
(`authenticated = true`), `connect()` is not a no-op — it opens a new
transport and performs the login handshake again. -/
theorem c8_counterexample :
    connect_effects ⟨("h").toList, 1, ("u").toList, ("p").toList, false, true⟩ =
      [ConnEffect.openConnection ("h").toList 1, ConnEffect.performLogin] ∧
    connect_effects ⟨("h").toList, 1, ("u").toList, ("p").toList, false, true⟩ ≠
      [] := by
  decide

/-- C8 (amended): `connect()` is not idempotent — called on a session already
in the Authenticated state it again opens a fresh transport to the stored
host and port and performs the login handshake; its effects do not depend on
the session's authentication history at all. -/
theorem c8_connect_not_idempotent (s : Session) (h : s.authenticated = true) :
    connect_effects s ≠ [] ∧
    connect_effects s = connect_effects { s with authenticated := false } ∧
    ConnEffect.openConnection s.ip s.port ∈ connect_effects s ∧
    ConnEffect.performLogin ∈ connect_effects s := by
  refine ⟨by simp [connect_effects], rfl, by simp [connect_effects],
    by simp [connect_effects]⟩

theorem c8_witness :
    connect_effects
        ⟨("host").toList, 8728, ("admin").toList, ("pw").toList, false, true⟩ ≠
      [] :=
  (c8_connect_not_idempotent
    ⟨("host").toList, 8728, ("admin").toList, ("pw").toList, false, true⟩ rfl).1

/-! ## C9 — `close` -/

/-- C9 counterexample: `close()` on a session that was never connected is not
safe — `self.writer` was never assigned, so the attribute access raises
`AttributeError` rather than returning. -/
theorem c9_counterexample :
    close_model none = Except.error PyError.attributeError := by
  rfl

/-- C9 (amended): once `connect()` has assigned a transport, `close()` is
idempotent — a first and an immediately repeated `close()` both return
without raising — but on a session that was never connected `close()` raises
`AttributeError` instead of being a no-op. -/
theorem c9_close_idempotent_after_connect (w : WriterHandle) :
    close_model (some w) = Except.ok ⟨true⟩ ∧
    close_model (some (writerClose w)) = Except.ok ⟨true⟩ ∧
    close_model none = Except.error PyError.attributeError :=
  ⟨rfl, rfl, rfl⟩

/-! ## C10 — constructor validation -/

/-- C10: constructing a session with any falsy connection parameter — empty
host string, port 0, empty user name, or empty password — raises
`RuntimeError('Wrong connection params!')` and produces no session object;
with all four parameters truthy, construction succeeds and stores them
unchanged (with `used = False`). -/
theorem c10_init_validation (ip : List Char) (port : Int) (user pw : List Char) :
    (ip = [] ∨ port = 0 ∨ user = [] ∨ pw = [] →
      init_model ip port user pw =
        Except.error ("Wrong connection params!").toList) ∧
    (ip ≠ [] → port ≠ 0 → user ≠ [] → pw ≠ [] →
      init_model ip port user pw =
        Except.ok ⟨ip, port, user, pw, false, false⟩) := by
  constructor
  · intro h
    unfold init_model
    rw [if_pos h]
  · intro h1 h2 h3 h4
    unfold init_model
    rw [if_neg (by simp [h1, h2, h3, h4])]

theorem c10_witness :
    init_model ("192.168.88.1").toList 8728 ("admin").toList ("pw").toList =
      Except.ok ⟨("192.168.88.1").toList, 8728, ("admin").toList,
        ("pw").toList, false, false⟩ ∧
    init_model [] 8728 ("admin").toList ("pw").toList =
      Except.error ("Wrong connection params!").toList :=
  ⟨(c10_init_validation ("192.168.88.1").toList 8728 ("admin").toList
      ("pw").toList).2 (by decide) (by decide) (by decide) (by decide),
   (c10_init_validation [] 8728 ("admin").toList ("pw").toList).1
      (Or.inl rfl)⟩

end AioApiRos
